import Mathlib

/-!
Shallow embedding of `src/swarm/src/stream_protocol.rs` from rust-libp2p,
together with a spec-modelled definition of the keep-alive vote aggregation
of the behaviour composition (whose Rust source is not part of the extract).

Modelling conventions:
* `&'static str` and `Arc<str>` both become Lean `String`s; the
  `Either<&'static str, Arc<str>>` backing storage becomes the two-constructor
  inductive `EitherStr`, so which construction path produced a value stays
  observable in the model (as it is in the Rust value's memory layout) while
  all public operations are proved to ignore it.
* A Rust `panic!` is modelled explicitly with the `ConstructResult.panicked`
  constructor, distinct from returning an error, so that "returns a
  recoverable error" and "crashes" are distinguishable propositions.
* `String::leak` followed by `Arc::from_raw` transfers the same character
  content into the shared backing storage; in the model this is simply the
  string itself carried by `EitherStr.right`.
-/

/-- Embedding of `either::Either<&'static str, Arc<str>>`: `left` is the
`&'static str` variant produced by `StreamProtocol::new`, `right` the
`Arc<str>` variant produced by `StreamProtocol::try_from_owned`. -/
inductive EitherStr where
  | left (s : String)
  | right (s : String)
  deriving DecidableEq, Repr

/-- Embedding of `struct StreamProtocol { inner: Either<&'static str, Arc<str>> }`. -/
structure StreamProtocol where
  inner : EitherStr
  deriving DecidableEq, Repr

/-- Embedding of the validity check both constructors perform.
`StreamProtocol::new` matches `s.as_bytes()` against the pattern
`[b'/', ..]` and `try_from_owned` calls `protocol.starts_with('/')`; both
test exactly that the first character is `'/'` (`'/'` is ASCII, so the
first UTF-8 byte is `b'/'` iff the first character is `'/'`). -/
def startsWithSlash (s : String) : Bool :=
  match s.data with
  | '/' :: _ => true
  | _ => false

/-- Embedding of `struct InvalidProtocol { _private: () }`: the error type of
`try_from_owned`, carrying no data. -/
structure InvalidProtocol where
  privateField : Unit
  deriving DecidableEq, Repr

/-- Embedding of `InvalidProtocol::missing_forward_slash`. -/
def InvalidProtocol.missing_forward_slash : InvalidProtocol := ⟨()⟩

/-- Embedding of `impl fmt::Display for InvalidProtocol`: writes a fixed
message independent of the value. -/
def InvalidProtocol.displayStr (_ : InvalidProtocol) : String :=
  "invalid protocol: string does not start with a forward slash"

/-- Outcome of a Rust function that either returns a value or panics.
Used to embed `StreamProtocol::new`, whose documented behaviour on invalid
input is `panic!("Protocols should start with a /")`. -/
inductive ConstructResult (α : Type) where
  | ok (a : α)
  | panicked (msg : String)
  deriving DecidableEq, Repr

/-- Embedding of `StreamProtocol::new`: matches the byte pattern
`[b'/', ..]`; on mismatch it panics with the message
`"Protocols should start with a /"`, otherwise it stores the static slice
in the `Either::Left` variant. -/
def StreamProtocol.new (s : String) : ConstructResult StreamProtocol :=
  match startsWithSlash s with
  | true => ConstructResult.ok ⟨EitherStr.left s⟩
  | false => ConstructResult.panicked "Protocols should start with a /"

/-- Embedding of `StreamProtocol::try_from_owned`: rejects strings not
starting with `'/'` with `InvalidProtocol::missing_forward_slash`; on
success it leaks the string and rebuilds it as a shared `Arc<str>`
(`Either::Right`), preserving the character content. -/
def StreamProtocol.try_from_owned (protocol : String) :
    Except InvalidProtocol StreamProtocol :=
  if !startsWithSlash protocol then
    Except.error InvalidProtocol.missing_forward_slash
  else
    Except.ok ⟨EitherStr.right protocol⟩

/-- Embedding of `impl AsRef<str> for StreamProtocol`: `for_both!` returns
the string content of whichever variant backs the value. -/
def StreamProtocol.as_ref (p : StreamProtocol) : String :=
  match p.inner with
  | EitherStr.left s => s
  | EitherStr.right s => s

/-- Embedding of `impl fmt::Display for StreamProtocol`: delegates to
`self.inner.fmt(f)`, and `Either`'s `Display` delegates to the contained
value, so the output is the string content of the active variant. -/
def StreamProtocol.displayStr (p : StreamProtocol) : String :=
  match p.inner with
  | EitherStr.left s => s
  | EitherStr.right s => s

/-- Embedding of `impl PartialEq for StreamProtocol`:
`self.as_ref() == other.as_ref()`. -/
def StreamProtocol.beqImpl (p q : StreamProtocol) : Bool :=
  p.as_ref == q.as_ref

/-- Embedding of `impl PartialEq<&str> for StreamProtocol`:
`self.as_ref() == *other`. -/
def StreamProtocol.eqStrImpl (p : StreamProtocol) (other : String) : Bool :=
  p.as_ref == other

/-- Embedding of `impl PartialEq<StreamProtocol> for &str`:
`*self == other.as_ref()`. -/
def StreamProtocol.strEqImpl (s : String) (other : StreamProtocol) : Bool :=
  s == other.as_ref

/-- Embedding of `impl Hash for StreamProtocol`:
`self.as_ref().hash(state)` feeds exactly the string content to the hasher,
so the data fed is `as_ref`. -/
def StreamProtocol.hashFeed (p : StreamProtocol) : String :=
  p.as_ref

/-- Embedding of `derive(Clone)` on `StreamProtocol`: cloning copies the
value (sharing the `Arc` backing) and changes nothing observable. -/
def StreamProtocol.clone (p : StreamProtocol) : StreamProtocol := p

/-- Modelled from the spec: the keep-alive vote aggregation of the
behaviour composition (the `NetworkBehaviour` composition source is not in
the extract; only the spec describes it). Each sub-behaviour contributes a
boolean vote, `true` meaning keep-alive and `false` meaning allow close;
"the aggregate for a connection is the logical OR across all
sub-Behaviors' current votes". -/
def aggregateKeepAlive (votes : List Bool) : Bool :=
  votes.foldr (fun v acc => v || acc) false

/-- Modelled from the spec: "a connection is eligible for idle close only
when every sub-Behavior currently votes to allow close", i.e. exactly when
the aggregate keep-alive vote is off. -/
def eligibleForIdleClose (votes : List Bool) : Bool :=
  !aggregateKeepAlive votes

lemma new_ok_iff (s : String) (p : StreamProtocol) :
    StreamProtocol.new s = ConstructResult.ok p ↔
      startsWithSlash s = true ∧ p = ⟨EitherStr.left s⟩ := by
  unfold StreamProtocol.new
  cases h : startsWithSlash s <;> simp [h, eq_comm]

lemma try_from_owned_ok_iff (s : String) (p : StreamProtocol) :
    StreamProtocol.try_from_owned s = Except.ok p ↔
      startsWithSlash s = true ∧ p = ⟨EitherStr.right s⟩ := by
  unfold StreamProtocol.try_from_owned
  cases h : startsWithSlash s <;> simp [h, eq_comm]

lemma try_from_owned_error_iff (s : String) (e : InvalidProtocol) :
    StreamProtocol.try_from_owned s = Except.error e ↔
      startsWithSlash s = false := by
  unfold StreamProtocol.try_from_owned
  cases h : startsWithSlash s <;>
    simp [h, InvalidProtocol.missing_forward_slash]

lemma startsWithSlash_ne_empty (s : String) (h : startsWithSlash s = true) :
    s ≠ "" := by
  intro he
  rw [he] at h
  exact absurd h (by decide)

lemma aggregateKeepAlive_eq_any (votes : List Bool) :
    aggregateKeepAlive votes = votes.any id := by
  induction votes with
  | nil => rfl
  | cons v t ih =>
      simp [aggregateKeepAlive, List.foldr_cons, List.any_cons] at ih ⊢
      rw [ih]


/-- C1: a `StreamProtocol` built by the static constructor and one built by
`try_from_owned` from the same string content compare equal and feed the
same data to the hasher; equality and hashing depend only on the string
content, never on the construction path. -/
theorem protocol_eq_hash_depend_only_on_content
    (s : String) (p1 p2 : StreamProtocol) :
    (StreamProtocol.new s = ConstructResult.ok p1 →
      StreamProtocol.try_from_owned s = Except.ok p2 →
      StreamProtocol.beqImpl p1 p2 = true ∧ p1.hashFeed = p2.hashFeed) ∧
    (p1.as_ref = p2.as_ref →
      StreamProtocol.beqImpl p1 p2 = true ∧ p1.hashFeed = p2.hashFeed) := by
  constructor
  · intro h1 h2
    obtain ⟨-, rfl⟩ := (new_ok_iff s p1).mp h1
    obtain ⟨-, rfl⟩ := (try_from_owned_ok_iff s p2).mp h2
    simp [StreamProtocol.beqImpl, StreamProtocol.hashFeed, StreamProtocol.as_ref]
  · intro h
    simp [StreamProtocol.beqImpl, StreamProtocol.hashFeed, h]

theorem protocol_eq_hash_depend_only_on_content_witness :
    StreamProtocol.beqImpl ⟨EitherStr.left "/foobar"⟩ ⟨EitherStr.right "/foobar"⟩ = true ∧
    StreamProtocol.hashFeed ⟨EitherStr.left "/foobar"⟩ =
      StreamProtocol.hashFeed ⟨EitherStr.right "/foobar"⟩ :=
  (protocol_eq_hash_depend_only_on_content "/foobar"
    ⟨EitherStr.left "/foobar"⟩ ⟨EitherStr.right "/foobar"⟩).1 rfl rfl

/-- C2: for every string whose first character is a forward slash,
`try_from_owned` returns `Ok` and `as_ref` on the result yields exactly the
input string. -/
theorem try_from_owned_succeeds_on_slash
    (s : String) (h : startsWithSlash s = true) :
    ∃ p, StreamProtocol.try_from_owned s = Except.ok p ∧ p.as_ref = s := by
  refine ⟨⟨EitherStr.right s⟩, ?_, rfl⟩
  exact (try_from_owned_ok_iff s _).mpr ⟨h, rfl⟩

theorem try_from_owned_succeeds_on_slash_witness :
    ∃ p, StreamProtocol.try_from_owned "/foobar" = Except.ok p ∧
      p.as_ref = "/foobar" :=
  try_from_owned_succeeds_on_slash "/foobar" rfl

/-- C3: for every string not starting with a forward slash, `try_from_owned`
returns `Err InvalidProtocol` (so no `StreamProtocol` value is produced),
and `try_from_owned` fails if and only if the input lacks the leading
forward slash. -/
theorem try_from_owned_error_iff_no_slash (s : String) :
    (startsWithSlash s = false →
      StreamProtocol.try_from_owned s =
        Except.error InvalidProtocol.missing_forward_slash) ∧
    ((∃ e, StreamProtocol.try_from_owned s = Except.error e) ↔
      startsWithSlash s = false) := by
  constructor
  · intro h
    exact (try_from_owned_error_iff s _).mpr h
  · constructor
    · rintro ⟨e, he⟩
      exact (try_from_owned_error_iff s e).mp he
    · intro h
      exact ⟨InvalidProtocol.missing_forward_slash,
        (try_from_owned_error_iff s InvalidProtocol.missing_forward_slash).mpr h⟩

theorem try_from_owned_error_iff_no_slash_witness :
    StreamProtocol.try_from_owned "abc" =
      Except.error InvalidProtocol.missing_forward_slash :=
  (try_from_owned_error_iff_no_slash "abc").1 rfl

/-- C4 counterexample: at the concrete input `"abc"` (which does not start
with `/`), `StreamProtocol::new` panics with the message
`"Protocols should start with a /"` rather than returning a recoverable
construction error, contradicting the claim that it does not panic. -/
theorem new_panics_counterexample :
    StreamProtocol.new "abc" =
      ConstructResult.panicked "Protocols should start with a /" := rfl

/-- C4 amended: the static constructor `StreamProtocol::new`, applied to a
string that does not start with `/`, panics (aborts construction) with the
message `"Protocols should start with a /"`; it never returns a recoverable
error value — only `try_from_owned` does. -/
theorem new_panics_on_invalid (s : String) (h : startsWithSlash s = false) :
    StreamProtocol.new s =
      ConstructResult.panicked "Protocols should start with a /" := by
  unfold StreamProtocol.new
  rw [h]

theorem new_panics_on_invalid_witness :
    StreamProtocol.new "foo" =
      ConstructResult.panicked "Protocols should start with a /" :=
  new_panics_on_invalid "foo" rfl

/-- C5: every successfully constructed `StreamProtocol`, from either
constructor, holds a non-empty string beginning with `/`, and the public
operations leave that string unchanged (`clone` preserves the value, and
`as_ref`, `displayStr`, `hashFeed` all read the same unmodified content). -/
theorem stream_protocol_invariant (s : String) (p : StreamProtocol)
    (h : StreamProtocol.new s = ConstructResult.ok p ∨
      StreamProtocol.try_from_owned s = Except.ok p) :
    p.as_ref ≠ "" ∧ startsWithSlash p.as_ref = true ∧
    p.clone = p ∧ p.clone.as_ref = p.as_ref ∧
    p.displayStr = p.as_ref ∧ p.hashFeed = p.as_ref := by
  have hs : startsWithSlash s = true ∧ p.as_ref = s := by
    rcases h with h | h
    · obtain ⟨h1, rfl⟩ := (new_ok_iff s p).mp h
      exact ⟨h1, rfl⟩
    · obtain ⟨h1, rfl⟩ := (try_from_owned_ok_iff s p).mp h
      exact ⟨h1, rfl⟩
  obtain ⟨h1, h2⟩ := hs
  refine ⟨?_, ?_, rfl, rfl, ?_, rfl⟩
  · rw [h2]
    exact startsWithSlash_ne_empty s h1
  · rw [h2]
    exact h1
  · cases p with
    | mk inner => cases inner <;> rfl

theorem stream_protocol_invariant_witness :
    (StreamProtocol.mk (EitherStr.right "/p")).as_ref ≠ "" ∧
    startsWithSlash (StreamProtocol.mk (EitherStr.right "/p")).as_ref = true ∧
    (StreamProtocol.mk (EitherStr.right "/p")).clone =
      StreamProtocol.mk (EitherStr.right "/p") ∧
    (StreamProtocol.mk (EitherStr.right "/p")).clone.as_ref =
      (StreamProtocol.mk (EitherStr.right "/p")).as_ref ∧
    (StreamProtocol.mk (EitherStr.right "/p")).displayStr =
      (StreamProtocol.mk (EitherStr.right "/p")).as_ref ∧
    (StreamProtocol.mk (EitherStr.right "/p")).hashFeed =
      (StreamProtocol.mk (EitherStr.right "/p")).as_ref :=
  stream_protocol_invariant "/p" ⟨EitherStr.right "/p"⟩ (Or.inr rfl)

/-- C6: comparison of a `StreamProtocol` against a plain string works in
both directions and is symmetric: `p == s` agrees with `s == p`, and both
hold exactly when `as_ref p` equals `s`. -/
theorem str_comparison_symmetric (p : StreamProtocol) (s : String) :
    StreamProtocol.eqStrImpl p s = StreamProtocol.strEqImpl s p ∧
    (StreamProtocol.eqStrImpl p s = true ↔ p.as_ref = s) := by
  constructor
  · simp only [StreamProtocol.eqStrImpl, StreamProtocol.strEqImpl]
    rw [Bool.eq_iff_iff, beq_iff_eq, beq_iff_eq]
    exact eq_comm
  · simp [StreamProtocol.eqStrImpl, beq_iff_eq]

theorem str_comparison_symmetric_witness :
    StreamProtocol.eqStrImpl ⟨EitherStr.left "/p6"⟩ "/p6" =
      StreamProtocol.strEqImpl "/p6" ⟨EitherStr.left "/p6"⟩ ∧
    StreamProtocol.eqStrImpl ⟨EitherStr.left "/p6"⟩ "/p6" = true :=
  ⟨(str_comparison_symmetric ⟨EitherStr.left "/p6"⟩ "/p6").1,
   (str_comparison_symmetric ⟨EitherStr.left "/p6"⟩ "/p6").2.mpr rfl⟩

/-- C7: the `Display` implementation writes exactly the string content
`as_ref p`, identically for the static-str-backed (`left`) and Arc-backed
(`right`) variants, so display output never reveals the backing variant. -/
theorem display_writes_as_ref (p : StreamProtocol) :
    p.displayStr = p.as_ref := by
  cases p with
  | mk inner => cases inner <;> rfl

/-- C8: the aggregate keep-alive vote is the logical OR of all current
sub-behaviour votes; the connection is eligible for idle close exactly when
every sub-behaviour votes to allow close, and never while any sub-behaviour
votes keep-alive. -/
theorem keep_alive_aggregate_is_or (votes : List Bool) :
    aggregateKeepAlive votes = votes.any id ∧
    (eligibleForIdleClose votes = true ↔ ∀ v ∈ votes, v = false) ∧
    ((∃ v ∈ votes, v = true) → eligibleForIdleClose votes = false) := by
  refine ⟨aggregateKeepAlive_eq_any votes, ?_, ?_⟩
  · simp [eligibleForIdleClose, aggregateKeepAlive_eq_any, List.any_eq_false]
  · rintro ⟨v, hv, rfl⟩
    simp [eligibleForIdleClose, aggregateKeepAlive_eq_any]
    exact hv

theorem keep_alive_aggregate_is_or_witness :
    aggregateKeepAlive [true, false] = [true, false].any id ∧
    eligibleForIdleClose [true, false] = false :=
  ⟨(keep_alive_aggregate_is_or [true, false]).1,
   (keep_alive_aggregate_is_or [true, false]).2.2 ⟨true, by decide, rfl⟩⟩

/-- C9: `try_from_owned` validates only the leading character: it succeeds
exactly when the first character is `/`, with no other well-formedness
condition (so `"/"` alone and strings with spaces are accepted). -/
theorem try_from_owned_validates_only_leading_slash (s : String) :
    (∃ p, StreamProtocol.try_from_owned s = Except.ok p) ↔
      startsWithSlash s = true := by
  constructor
  · rintro ⟨p, hp⟩
    exact ((try_from_owned_ok_iff s p).mp hp).1
  · intro h
    exact ⟨⟨EitherStr.right s⟩, (try_from_owned_ok_iff s _).mpr ⟨h, rfl⟩⟩

theorem try_from_owned_validates_only_leading_slash_witness :
    (∃ p, StreamProtocol.try_from_owned "/" = Except.ok p) ∧
    (∃ p, StreamProtocol.try_from_owned "/a b" = Except.ok p) :=
  ⟨(try_from_owned_validates_only_leading_slash "/").mpr rfl,
   (try_from_owned_validates_only_leading_slash "/a b").mpr rfl⟩

/-- C10: the `InvalidProtocol` error carries no information about the
rejected input: any two values are equal (it has no data), its display
output is the fixed message, and every error produced by `try_from_owned`
displays that same fixed message. -/
theorem invalid_protocol_no_information
    (e e' : InvalidProtocol) (s : String) :
    e = e' ∧
    e.displayStr =
      "invalid protocol: string does not start with a forward slash" ∧
    (StreamProtocol.try_from_owned s = Except.error e →
      e.displayStr =
        "invalid protocol: string does not start with a forward slash") := by
  rcases e with ⟨⟨⟩⟩
  rcases e' with ⟨⟨⟩⟩
  exact ⟨rfl, rfl, fun _ => rfl⟩

theorem invalid_protocol_no_information_witness :
    InvalidProtocol.missing_forward_slash = InvalidProtocol.mk () ∧
    InvalidProtocol.displayStr InvalidProtocol.missing_forward_slash =
      "invalid protocol: string does not start with a forward slash" :=
  ⟨(invalid_protocol_no_information
      InvalidProtocol.missing_forward_slash (InvalidProtocol.mk ()) "abc").1,
   (invalid_protocol_no_information
      InvalidProtocol.missing_forward_slash (InvalidProtocol.mk ()) "abc").2.2 rfl⟩
